import Mathlib

/-!
Verification development for the crypto prediction engine.

The definitions below are a shallow embedding, over `ℚ`, of the
technical-indicator library (`src/lib/technical-indicators.ts`) and of the
prediction engine (`generatePrediction` and its helpers).  JavaScript numbers
are modelled as exact rationals; `Math.round` is `⌊x + 1/2⌋`; `Math.sqrt`
(which is not rational-valued) is passed in as an explicit function parameter
`sqrtQ`, so every theorem quantifying over `sqrtQ` holds for the real square
root in particular.  A JavaScript value that can be `undefined`/`NaN` at the
relevant program point is modelled as an `Option ℚ`, and a statement that
would throw a `TypeError` (an out-of-bounds or `NaN` array index) makes the
embedded function return `Option.none`.
-/

/-- Overbought / oversold / neutral signal, as used by RSI and Bollinger. -/
inductive OBSignal where
  | overbought
  | oversold
  | neutral
deriving Repr, DecidableEq

/-- Bullish / bearish / neutral trend. -/
inductive Trend where
  | bullish
  | bearish
  | neutral
deriving Repr, DecidableEq

/-- MACD crossover tag. -/
inductive MACDCrossover where
  | bullishCrossover
  | bearishCrossover
  | none
deriving Repr, DecidableEq

/-- Position of the current price relative to the Bollinger bands. -/
inductive BBPosition where
  | aboveUpper
  | nearUpper
  | middle
  | nearLower
  | belowLower
deriving Repr, DecidableEq

/-- Kind of a support/resistance level. -/
inductive LevelType where
  | support
  | resistance
deriving Repr, DecidableEq

/-- Strength of a support/resistance level. -/
inductive LevelStrength where
  | strong
  | moderate
  | weak
deriving Repr, DecidableEq

/-- High / normal / low volume signal. -/
inductive VolumeSignal where
  | high
  | normal
  | low
deriving Repr, DecidableEq

/-- Direction of the trading call (`PredictionType` in the source). -/
inductive PredictionType where
  | LONG
  | SHORT
  | NEUTRAL
deriving Repr, DecidableEq

/-- Five-level sentiment category (`SentimentScore` in the source). -/
inductive SentimentScore where
  | EXTREME_BULLISH
  | BULLISH
  | NEUTRAL
  | BEARISH
  | EXTREME_BEARISH
deriving Repr, DecidableEq

/-- Impact tag of a prediction reason. -/
inductive Impact where
  | positive
  | negative
  | neutral
deriving Repr, DecidableEq

/-- Coarse risk classification. -/
inductive RiskLevel where
  | Low
  | Medium
  | High
  | Extreme
deriving Repr, DecidableEq

/-- One sample of the price history (`PriceHistoryPoint` in the source). -/
structure PriceHistoryPoint where
  timestamp : ℤ
  price : ℚ
deriving Repr, DecidableEq

/-- Result of `calculateRSI`. -/
structure RSIIndicator where
  value : ℚ
  signal : OBSignal
  trend : Trend
deriving Repr, DecidableEq

/-- Result of `calculateMACD`. -/
structure MACDIndicator where
  macd : ℚ
  signal : ℚ
  histogram : ℚ
  trend : Trend
  crossover : MACDCrossover
deriving Repr, DecidableEq

/-- Result of `calculateBollingerBands`.  The three band values are
`Option ℚ` because on an empty input series the JavaScript code computes
them from `undefined` (the missing last element), yielding `undefined`/`NaN`;
that degenerate outcome is modelled by `Option.none`. -/
structure BollingerBandsIndicator where
  upper : Option ℚ
  middle : Option ℚ
  lower : Option ℚ
  bandwidth : ℚ
  position : BBPosition
  signal : OBSignal
deriving Repr, DecidableEq

/-- A detected support or resistance level (`SupportResistanceLevel`). -/
structure SupportResistanceLevel where
  price : ℚ
  type : LevelType
  strength : LevelStrength
  touches : ℕ
deriving Repr, DecidableEq

/-- One bucket of the volume profile (`VolumeProfile` in the source). -/
structure VolumeProfile where
  priceLevel : ℚ
  volume : ℚ
  percentage : ℚ
deriving Repr, DecidableEq

/-- The basic indicators derived from an asset snapshot
(`TechnicalIndicators` in the source). -/
structure TechnicalIndicators where
  trend_24h : Trend
  trend_7d : Trend
  momentum : ℚ
  volume_signal : VolumeSignal
  volatility : ℚ
  strength : ℚ
deriving Repr, DecidableEq

/-- The enhanced indicator bundle as the prediction engine consumes it
(`Partial<EnhancedTechnicalIndicators>`).  The engine only ever reads the
five optional enhanced fields below (plus the basic fields it already has
separately), so the unused optional `candlestickPattern`/`volumeProfile`
fields are omitted; each enhanced field is `Option` because the TS type marks
every field optional. -/
structure EnhancedTechnicalIndicators where
  trend_24h : Trend
  trend_7d : Trend
  momentum : ℚ
  volume_signal : VolumeSignal
  volatility : ℚ
  strength : ℚ
  rsi : Option RSIIndicator
  macd : Option MACDIndicator
  bollingerBands : Option BollingerBandsIndicator
  supportLevels : Option (List SupportResistanceLevel)
  resistanceLevels : Option (List SupportResistanceLevel)
deriving Repr, DecidableEq

/-- JavaScript `Math.round`: round half up, i.e. `⌊x + 1/2⌋`. -/
def jsRound (x : ℚ) : ℤ := ⌊x + 1 / 2⌋

/-- The last `n` elements of a list (JavaScript `slice(-n)` for `n ≥ 1`). -/
def takeLast {α : Type} (n : ℕ) (l : List α) : List α := l.drop (l.length - n)

/-- `calculateSMA` from `technical-indicators.ts`: on input shorter than the
period it returns the last element (`prices[prices.length - 1] || 0`), else
the mean of the last `period` values. -/
def calculateSMA (prices : List ℚ) (period : ℕ) : ℚ :=
  if prices.length < period then prices.getLastD 0
  else (takeLast period prices).foldl (· + ·) 0 / (period : ℚ)

/-- `calculateEMA` from `technical-indicators.ts`. -/
def calculateEMA (prices : List ℚ) (period : ℕ) : ℚ :=
  if prices.length < period then calculateSMA prices prices.length
  else
    let multiplier : ℚ := 2 / ((period : ℚ) + 1)
    (prices.drop period).foldl (fun ema p => (p - ema) * multiplier + ema)
      (calculateSMA (prices.take period) period)

/-- The list of consecutive price changes `prices[i] - prices[i-1]`. -/
def priceDeltas (l : List ℚ) : List ℚ :=
  List.zipWith (fun prev next => next - prev) l l.tail

/-- Seed average gain / average loss of RSI over the first `period` deltas
(the first loop of `calculateRSI`, followed by the division by `period`). -/
def rsiInitAvgs (period : ℕ) (changes : List ℚ) : ℚ × ℚ :=
  let s := (changes.take period).foldl
    (fun gl c => if c > 0 then (gl.1 + c, gl.2) else (gl.1, gl.2 + |c|)) (0, 0)
  (s.1 / (period : ℚ), s.2 / (period : ℚ))

/-- Wilder smoothing over the remaining deltas (the second loop of
`calculateRSI`). -/
def rsiSmooth (period : ℕ) (changes : List ℚ) (init : ℚ × ℚ) : ℚ × ℚ :=
  (changes.drop period).foldl
    (fun gl c =>
      if c > 0 then
        ((gl.1 * ((period : ℚ) - 1) + c) / (period : ℚ),
          gl.2 * ((period : ℚ) - 1) / (period : ℚ))
      else
        (gl.1 * ((period : ℚ) - 1) / (period : ℚ),
          (gl.2 * ((period : ℚ) - 1) + |c|) / (period : ℚ)))
    init

/-- `calculateRSI` from `technical-indicators.ts`. -/
def calculateRSI (prices : List PriceHistoryPoint) (period : ℕ) : RSIIndicator :=
  if prices.length < period + 1 then
    { value := 50, signal := .neutral, trend := .neutral }
  else
    let priceChanges := priceDeltas (prices.map (·.price))
    let avgs := rsiSmooth period priceChanges (rsiInitAvgs period priceChanges)
    let rs := if avgs.2 = 0 then 100 else avgs.1 / avgs.2
    let rsi := 100 - 100 / (1 + rs)
    let signal := if rsi > 70 then OBSignal.overbought
      else if rsi < 30 then OBSignal.oversold else OBSignal.neutral
    let lastChange := priceChanges.getLastD 0
    let trend := if rsi > 50 ∧ lastChange > 0 then Trend.bullish
      else if rsi < 50 ∧ lastChange < 0 then Trend.bearish else Trend.neutral
    { value := rsi, signal := signal, trend := trend }

/-- `calculateMACD` from `technical-indicators.ts`. -/
def calculateMACD (prices : List PriceHistoryPoint) : MACDIndicator :=
  let priceValues := prices.map (·.price)
  if priceValues.length < 26 then
    { macd := 0, signal := 0, histogram := 0, trend := .neutral, crossover := .none }
  else
    let ema12 := calculateEMA priceValues 12
    let ema26 := calculateEMA priceValues 26
    let macdLine := ema12 - ema26
    let macdHistory := (List.range' 26 (priceValues.length - 25)).map (fun i =>
      calculateEMA (priceValues.take i) 12 - calculateEMA (priceValues.take i) 26)
    let signalLine := calculateEMA macdHistory 9
    let histogram := macdLine - signalLine
    let trend := if macdLine > signalLine ∧ histogram > 0 then Trend.bullish
      else if macdLine < signalLine ∧ histogram < 0 then Trend.bearish
      else Trend.neutral
    let crossover :=
      if macdHistory.length ≥ 2 then
        let prevMACD := macdHistory.getD (macdHistory.length - 2) 0
        let prevSignal := calculateEMA macdHistory.dropLast 9
        if prevMACD ≤ prevSignal ∧ macdLine > signalLine then
          MACDCrossover.bullishCrossover
        else if prevMACD ≥ prevSignal ∧ macdLine < signalLine then
          MACDCrossover.bearishCrossover
        else MACDCrossover.none
      else MACDCrossover.none
    { macd := macdLine, signal := signalLine, histogram := histogram,
      trend := trend, crossover := crossover }

/-- `calculateBollingerBands` from `technical-indicators.ts`.  `sqrtQ` stands
for `Math.sqrt`; all theorems below hold for every choice of `sqrtQ`.  In the
long branch the current price exists whenever `period ≥ 1`; the `none` case of
the match mirrors the JavaScript behaviour on an empty series, where every
comparison against `undefined` is false and the position defaults to
`middle`. -/
def calculateBollingerBands (sqrtQ : ℚ → ℚ) (prices : List PriceHistoryPoint)
    (period : ℕ) (stdDev : ℚ) : BollingerBandsIndicator :=
  let priceValues := prices.map (·.price)
  let currentPrice : Option ℚ := priceValues.getLast?
  if priceValues.length < period then
    { upper := currentPrice.map (· * 1.05)
      middle := currentPrice
      lower := currentPrice.map (· * 0.95)
      bandwidth := 10
      position := .middle
      signal := .neutral }
  else
    let sma := calculateSMA priceValues period
    let recentPrices := takeLast period priceValues
    let variance := (recentPrices.foldl (fun s p => s + (p - sma) ^ 2) 0) / (period : ℚ)
    let standardDeviation := sqrtQ variance
    let upper := sma + stdDev * standardDeviation
    let lower := sma - stdDev * standardDeviation
    let bandwidth := ((upper - lower) / sma) * 100
    let upperThreshold := upper - (upper - sma) * 0.2
    let lowerThreshold := lower + (sma - lower) * 0.2
    let position :=
      match currentPrice with
      | some c =>
        if c > upper then BBPosition.aboveUpper
        else if c > upperThreshold then BBPosition.nearUpper
        else if c < lower then BBPosition.belowLower
        else if c < lowerThreshold then BBPosition.nearLower
        else BBPosition.middle
      | none => BBPosition.middle
    let signal :=
      if position = BBPosition.aboveUpper ∨ position = BBPosition.nearUpper then
        OBSignal.overbought
      else if position = BBPosition.belowLower ∨ position = BBPosition.nearLower then
        OBSignal.oversold
      else OBSignal.neutral
    { upper := some upper, middle := some sma, lower := some lower,
      bandwidth := bandwidth, position := position, signal := signal }

/-- A raw (not yet formatted) support/resistance level: running-average price
plus touch count. -/
structure RawLevel where
  price : ℚ
  touches : ℕ
deriving Repr, DecidableEq

/-- Clustering step of `detectSupportResistance`: merge `price` into the first
existing level within `threshold` relative distance (JavaScript `find` +
in-place update), or append a fresh level with one touch. -/
def clusterInsert (threshold price : ℚ) : List RawLevel → List RawLevel
  | [] => [{ price := price, touches := 1 }]
  | l :: rest =>
    if |l.price - price| / price < threshold then
      { price := (l.price * (l.touches : ℚ) + price) / ((l.touches : ℚ) + 1),
        touches := l.touches + 1 } :: rest
    else l :: clusterInsert threshold price rest

/-- The `formatLevel` closure of `detectSupportResistance`. -/
def formatLevel (l : RawLevel) (t : LevelType) : SupportResistanceLevel :=
  let strength := if l.touches ≥ 3 then LevelStrength.strong
    else if l.touches = 2 then LevelStrength.moderate else LevelStrength.weak
  { price := l.price, type := t, strength := strength, touches := l.touches }

/-- The filter → sort-by-comparator → `slice(0, 3)` → `formatLevel` pipeline
applied to each of the two clustered level lists at the end of
`detectSupportResistance`. -/
def selectLevels (p : RawLevel → Bool) (le : RawLevel → RawLevel → Bool)
    (t : LevelType) (levels : List RawLevel) : List SupportResistanceLevel :=
  (((levels.filter p).mergeSort le).take 3).map (fun s => formatLevel s t)

/-- `detectSupportResistance` from `technical-indicators.ts`.  The index loop
`for (i = 2; i < n - 2; i++)` is a fold over `List.range' 2 (n - 4)`; in each
iteration a strict local minimum is clustered into the support list and a
strict local maximum into the resistance list. -/
def detectSupportResistance (prices : List PriceHistoryPoint) (threshold : ℚ) :
    List SupportResistanceLevel × List SupportResistanceLevel :=
  if prices.length < 10 then ([], [])
  else
    let priceValues := prices.map (·.price)
    let currentPrice := priceValues.getLastD 0
    let step := fun (acc : List RawLevel × List RawLevel) (i : ℕ) =>
      let price := priceValues.getD i 0
      let prev1 := priceValues.getD (i - 1) 0
      let prev2 := priceValues.getD (i - 2) 0
      let next1 := priceValues.getD (i + 1) 0
      let next2 := priceValues.getD (i + 2) 0
      let acc1 :=
        if price < prev1 ∧ price < prev2 ∧ price < next1 ∧ price < next2 then
          (clusterInsert threshold price acc.1, acc.2)
        else acc
      if price > prev1 ∧ price > prev2 ∧ price > next1 ∧ price > next2 then
        (acc1.1, clusterInsert threshold price acc1.2)
      else acc1
    let clustered := (List.range' 2 (priceValues.length - 4)).foldl step ([], [])
    let relevantSupports := selectLevels
      (fun s => decide (s.price < currentPrice) && decide (s.price > currentPrice * 0.8))
      (fun a b => decide (b.price ≤ a.price)) LevelType.support clustered.1
    let relevantResistances := selectLevels
      (fun r => decide (r.price > currentPrice) && decide (r.price < currentPrice * 1.2))
      (fun a b => decide (a.price ≤ b.price)) LevelType.resistance clustered.2
    (relevantSupports, relevantResistances)

/-- JavaScript `Math.min(...xs)` over a nonempty list (0 for the empty list,
which never occurs at the call site). -/
def jsMinList (l : List ℚ) : ℚ :=
  match l with
  | [] => 0
  | h :: t => t.foldl min h

/-- JavaScript `Math.max(...xs)` over a nonempty list. -/
def jsMaxList (l : List ℚ) : ℚ :=
  match l with
  | [] => 0
  | h :: t => t.foldl max h

/-- The bucket index `Math.min(Math.floor((price - minPrice)/priceStep),
priceRanges - 1)` of `calculateVolumeProfile`.  When `priceStep = 0` (all
input prices equal) the JavaScript division yields `NaN`, the whole index
expression is `NaN`, and the subsequent `buckets[NaN].volume` access throws;
`none` models that `NaN` index. -/
def vpBucketIndex (minPrice priceStep : ℚ) (priceRanges : ℕ) (price : ℚ) : Option ℤ :=
  if priceStep = 0 then none
  else some (min ⌊(price - minPrice) / priceStep⌋ ((priceRanges : ℤ) - 1))

/-- Add `v` to the volume of the bucket at position `n`. -/
def vpAddAt (v : ℚ) : ℕ → List (ℚ × ℚ) → List (ℚ × ℚ)
  | _, [] => []
  | 0, b :: bs => (b.1, b.2 + v) :: bs
  | n + 1, b :: bs => b :: vpAddAt v n bs

/-- `buckets[bucketIndex].volume += volume`, returning `none` (a thrown
`TypeError`) when the index is out of bounds. -/
def vpAdd (bs : List (ℚ × ℚ)) (idx : ℤ) (v : ℚ) : Option (List (ℚ × ℚ)) :=
  if 0 ≤ idx ∧ idx.toNat < bs.length then some (vpAddAt v idx.toNat bs) else none

/-- The `forEach` distribution loop of `calculateVolumeProfile`: each
`(price, volume)` sample is added to its bucket; a `NaN` or out-of-bounds
index aborts with `none` exactly where the JavaScript code would throw. -/
def vpDistribute (minPrice priceStep : ℚ) (priceRanges : ℕ) :
    List (ℚ × ℚ) → List (ℚ × ℚ) → Option (List (ℚ × ℚ))
  | [], bs => some bs
  | s :: rest, bs =>
    match vpBucketIndex minPrice priceStep priceRanges s.1 with
    | none => none
    | some idx =>
      match vpAdd bs idx s.2 with
      | none => none
      | some bs2 => vpDistribute minPrice priceStep priceRanges rest bs2

/-- `calculateVolumeProfile` from `technical-indicators.ts`, as a partial
function: `none` is the thrown `TypeError` on a `NaN`/out-of-bounds bucket
index (which happens exactly when all input prices coincide, the
`priceStep = 0` case). -/
def calculateVolumeProfile (pricesWithVolume : List (ℚ × ℚ)) (priceRanges : ℕ) :
    Option (List VolumeProfile) :=
  if pricesWithVolume.isEmpty then some []
  else
    let prices := pricesWithVolume.map Prod.fst
    let minPrice := jsMinList prices
    let maxPrice := jsMaxList prices
    let priceStep := (maxPrice - minPrice) / (priceRanges : ℚ)
    let buckets := (List.range priceRanges).map (fun (i : ℕ) =>
      (minPrice + priceStep * (i : ℚ) + priceStep / 2, (0 : ℚ)))
    match vpDistribute minPrice priceStep priceRanges pricesWithVolume buckets with
    | none => none
    | some bs =>
      let totalVolume := (bs.map Prod.snd).sum
      some (((bs.map (fun b =>
          ({ priceLevel := b.1, volume := b.2,
             percentage := b.2 / totalVolume * 100 } : VolumeProfile))).filter
        (fun b => decide (b.volume > 0))).mergeSort
        (fun a b => decide (b.volume ≤ a.volume)))

/-- JavaScript `Number.prototype.toFixed`, modelled over `ℚ` as rounding half
away from zero to `d` decimal digits and printing with a fixed-width decimal
part. -/
def toFixedQ (x : ℚ) (d : ℕ) : String :=
  let n : ℤ := if x ≥ 0 then ⌊x * ((10 : ℚ) ^ d) + 1 / 2⌋ else -⌊(-x) * ((10 : ℚ) ^ d) + 1 / 2⌋
  let m : ℕ := n.natAbs
  let ip : ℕ := m / 10 ^ d
  let fp : ℕ := m % 10 ^ d
  let sign : String := if n < 0 then "-" else ""
  if d = 0 then sign ++ toString ip
  else
    let fs := toString fp
    let pad := String.mk (List.replicate (d - fs.length) '0')
    sign ++ toString ip ++ "." ++ pad ++ fs

/-- The fields of `CryptoData` that the prediction engine reads.  The two
percent-change fields are `Option ℚ` because the upstream API can deliver
`null` there (the source guards them with `|| 0`). -/
structure CryptoData where
  id : String
  name : String
  current_price : ℚ
  market_cap : ℚ
  market_cap_rank : ℚ
  total_volume : ℚ
  price_change_percentage_24h : Option ℚ
  price_change_percentage_7d_in_currency : Option ℚ
  high_24h : ℚ
  low_24h : ℚ
deriving Repr, DecidableEq

/-- One human-readable reason attached to a prediction. -/
structure PredictionReason where
  category : String
  text : String
  impact : Impact
deriving Repr, DecidableEq

/-- The final prediction record (`CryptoPrediction` in the source). -/
structure CryptoPrediction where
  crypto : CryptoData
  prediction : PredictionType
  sentiment : SentimentScore
  confidence : ℤ
  indicators : TechnicalIndicators
  reasons : List PredictionReason
  targetPrice : ℚ
  stopLoss : ℚ
  timeframe : String
  analysis : String
  leverage : ℤ
  riskLevel : RiskLevel
deriving Repr, DecidableEq

/-- The payload of the external `fetchPriceHistory` collaborator. -/
structure PriceHistory where
  coinId : String
  prices : List PriceHistoryPoint
deriving Repr, DecidableEq

/-- `calculateBasicIndicators` from the prediction engine. -/
def calculateBasicIndicators (crypto : CryptoData) : TechnicalIndicators :=
  let price24h := crypto.price_change_percentage_24h.getD 0
  let price7d := crypto.price_change_percentage_7d_in_currency.getD 0
  let momentum := max (-100) (min 100 ((price24h * 2.5 + price7d) / 3.5))
  let trend_24h := if price24h > 0.5 then Trend.bullish
    else if price24h < -0.5 then Trend.bearish else Trend.neutral
  let trend_7d := if price7d > 1 then Trend.bullish
    else if price7d < -1 then Trend.bearish else Trend.neutral
  let range := crypto.high_24h - crypto.low_24h
  let volatility := min 100 (range / crypto.current_price * 100)
  let volumeShare := crypto.total_volume / crypto.market_cap
  let volume_signal := if volumeShare > 0.15 then VolumeSignal.high
    else if volumeShare < 0.05 then VolumeSignal.low else VolumeSignal.normal
  let priceStrength := if price24h > 0 then min 30 (price24h * 3) else max (-30) (price24h * 3)
  let trendStrength := if price7d > 0 then min 20 (price7d * 2) else max (-20) (price7d * 2)
  let strength := max 0 (min 100 (50 + priceStrength + trendStrength))
  { trend_24h := trend_24h, trend_7d := trend_7d, momentum := momentum,
    volume_signal := volume_signal, volatility := volatility, strength := strength }

/-- `determinePrediction` from the prediction engine: the bullish/bearish
score accumulation is written as a sum of the individual (mutually exclusive
within each `if`/`else if` chain) contributions, in source order. -/
def determinePrediction (indicators : TechnicalIndicators)
    (enhancedIndicators : Option EnhancedTechnicalIndicators) : PredictionType :=
  let momentum := indicators.momentum
  let baseBull : ℤ :=
    (if momentum > 5 ∧ indicators.trend_24h = Trend.bullish then 2 else 0)
    + (if momentum > 10 ∧ indicators.trend_7d = Trend.bullish then 2 else 0)
    + (if indicators.volume_signal = VolumeSignal.high ∧ indicators.strength > 55 then 1 else 0)
  let baseBear : ℤ :=
    (if momentum < -5 ∧ indicators.trend_24h = Trend.bearish then 2 else 0)
    + (if momentum < -10 ∧ indicators.trend_7d = Trend.bearish then 2 else 0)
    + (if indicators.volume_signal = VolumeSignal.high ∧ indicators.strength < 45 then 1 else 0)
  let enh : ℤ × ℤ :=
    match enhancedIndicators with
    | Option.none => (0, 0)
    | some e =>
      let rsiD : ℤ × ℤ :=
        match e.rsi with
        | Option.none => (0, 0)
        | some rsi =>
          let main : ℤ × ℤ :=
            if rsi.signal = OBSignal.oversold ∧ rsi.trend = Trend.bullish then (3, 0)
            else if rsi.signal = OBSignal.oversold then (2, 0)
            else if rsi.signal = OBSignal.overbought ∧ rsi.trend = Trend.bearish then (0, 3)
            else if rsi.signal = OBSignal.overbought then (0, 2)
            else (0, 0)
          (main.1 + (if rsi.value > 50 ∧ rsi.trend = Trend.bullish then 1 else 0),
            main.2 + (if rsi.value < 50 ∧ rsi.trend = Trend.bearish then 1 else 0))
      let macdD : ℤ × ℤ :=
        match e.macd with
        | Option.none => (0, 0)
        | some macd =>
          let cross : ℤ × ℤ :=
            if macd.crossover = MACDCrossover.bullishCrossover then (3, 0)
            else if macd.crossover = MACDCrossover.bearishCrossover then (0, 3)
            else (0, 0)
          let hist : ℤ × ℤ :=
            if macd.trend = Trend.bullish ∧ macd.histogram > 0 then (2, 0)
            else if macd.trend = Trend.bearish ∧ macd.histogram < 0 then (0, 2)
            else (0, 0)
          (cross.1 + hist.1, cross.2 + hist.2)
      let bbD : ℤ × ℤ :=
        match e.bollingerBands with
        | Option.none => (0, 0)
        | some bb =>
          let band : ℤ × ℤ :=
            if bb.signal = OBSignal.oversold ∨ bb.position = BBPosition.belowLower then (2, 0)
            else if bb.signal = OBSignal.overbought ∨ bb.position = BBPosition.aboveUpper then (0, 2)
            else (0, 0)
          let squeeze : ℤ × ℤ :=
            if bb.bandwidth < 5 ∧ bb.position = BBPosition.nearLower then (1, 0)
            else if bb.bandwidth < 5 ∧ bb.position = BBPosition.nearUpper then (0, 1)
            else (0, 0)
          (band.1 + squeeze.1, band.2 + squeeze.2)
      let srD : ℤ × ℤ :=
        match e.supportLevels, e.resistanceLevels with
        | some sl, some rl =>
          ((if sl.any (fun s => decide (s.strength = LevelStrength.strong))
                ∧ indicators.trend_24h = Trend.bullish then 2 else 0),
            (if rl.any (fun r => decide (r.strength = LevelStrength.strong))
                ∧ indicators.trend_24h = Trend.bearish then 2 else 0))
        | _, _ => (0, 0)
      (rsiD.1 + macdD.1 + bbD.1 + srD.1, rsiD.2 + macdD.2 + bbD.2 + srD.2)
  let scoreDifference := (baseBull + enh.1) - (baseBear + enh.2)
  if scoreDifference ≥ 3 then PredictionType.LONG
  else if scoreDifference ≤ -3 then PredictionType.SHORT
  else if momentum > 2 then PredictionType.LONG
  else if momentum < -2 then PredictionType.SHORT
  else PredictionType.NEUTRAL

/-- `calculateSentiment` from the prediction engine, including the source's
`if score > 40 then BULLISH else BULLISH` collapse for LONG (and its SHORT
mirror). -/
def calculateSentiment (indicators : TechnicalIndicators) (prediction : PredictionType)
    (enhancedIndicators : Option EnhancedTechnicalIndicators) : SentimentScore :=
  let base : ℚ :=
    if prediction = PredictionType.LONG then (indicators.momentum + indicators.strength) / 2
    else if prediction = PredictionType.SHORT then
      -((|indicators.momentum|) + (100 - indicators.strength)) / 2
    else 0
  let sentimentScore : ℚ := base +
    (match enhancedIndicators with
    | Option.none => 0
    | some e =>
      (match e.rsi with
        | some rsi => (if rsi.signal = OBSignal.oversold then 10 else 0)
            + (if rsi.signal = OBSignal.overbought then -10 else 0)
        | Option.none => 0)
      + (match e.macd with
        | some macd => (if macd.crossover = MACDCrossover.bullishCrossover then 15 else 0)
            + (if macd.crossover = MACDCrossover.bearishCrossover then -15 else 0)
        | Option.none => 0)
      + (match e.bollingerBands with
        | some bb => (if bb.signal = OBSignal.oversold then 8 else 0)
            + (if bb.signal = OBSignal.overbought then -8 else 0)
        | Option.none => 0))
  if prediction = PredictionType.LONG then
    if sentimentScore > 60 then SentimentScore.EXTREME_BULLISH
    else if sentimentScore > 40 then SentimentScore.BULLISH
    else SentimentScore.BULLISH
  else if prediction = PredictionType.SHORT then
    if sentimentScore < -60 then SentimentScore.EXTREME_BEARISH
    else if sentimentScore < -40 then SentimentScore.BEARISH
    else SentimentScore.BEARISH
  else SentimentScore.NEUTRAL

/-- `calculateLeverage` from the prediction engine. -/
def calculateLeverage (confidence volatility : ℚ) (prediction : PredictionType) : ℤ :=
  if prediction = PredictionType.NEUTRAL then 1
  else
    let baseMultiplier := confidence / 100
    let volatilityFactor := max 0.3 (1 - volatility / 100)
    let leverage := baseMultiplier * volatilityFactor * 10
    if volatility > 8 then min 2 (max 1 (jsRound leverage))
    else if volatility > 6 then min 3 (max 1 (jsRound leverage))
    else if volatility > 4 then min 5 (max 2 (jsRound leverage))
    else if volatility > 2 then min 7 (max 3 (jsRound leverage))
    else min 10 (max 3 (jsRound leverage))

/-- The leverage formula exactly as claim C4 words it: `round((confidence/100)
× max(0.3, 1 − volatility/100) × 10)` clamped by the volatility band.  Written
from the claim, to be compared with `calculateLeverage`. -/
def claimedLeverage (confidence volatility : ℚ) : ℤ :=
  let raw := jsRound (confidence / 100 * max 0.3 (1 - volatility / 100) * 10)
  if volatility > 8 then min 2 (max 1 raw)
  else if volatility > 6 then min 3 (max 1 raw)
  else if volatility > 4 then min 5 (max 2 raw)
  else if volatility > 2 then min 7 (max 3 raw)
  else min 10 (max 3 raw)

/-- `calculateRiskLevel` from the prediction engine. -/
def calculateRiskLevel (volatility : ℚ) (leverage : ℤ)
    (indicators : TechnicalIndicators) : RiskLevel :=
  let riskScore := volatility * 8 + (leverage : ℚ) * 3 + (100 - indicators.strength) * 0.2
  if riskScore > 70 then RiskLevel.Extreme
  else if riskScore > 45 then RiskLevel.High
  else if riskScore > 25 then RiskLevel.Medium
  else RiskLevel.Low

/-- `generateReasons` from the prediction engine: the conditional `push`
calls become concatenation of conditional singleton lists, in source order. -/
def generateReasons (crypto : CryptoData) (indicators : TechnicalIndicators)
    (prediction : PredictionType)
    (enhancedIndicators : Option EnhancedTechnicalIndicators) : List PredictionReason :=
  let rsiReasons : List PredictionReason :=
    match enhancedIndicators with
    | Option.none => []
    | some e =>
      match e.rsi with
      | Option.none => []
      | some rsi =>
        if rsi.signal = OBSignal.oversold then
          [{ category := "RSI Signal",
             text := "RSI at " ++ toFixedQ rsi.value 1
               ++ " indicates oversold conditions - potential bounce",
             impact := Impact.positive }]
        else if rsi.signal = OBSignal.overbought then
          [{ category := "RSI Signal",
             text := "RSI at " ++ toFixedQ rsi.value 1
               ++ " indicates overbought conditions - potential correction",
             impact := Impact.negative }]
        else if rsi.value > 50 ∧ rsi.trend = Trend.bullish then
          [{ category := "RSI Signal",
             text := "RSI at " ++ toFixedQ rsi.value 1 ++ " with bullish momentum",
             impact := Impact.positive }]
        else if rsi.value < 50 ∧ rsi.trend = Trend.bearish then
          [{ category := "RSI Signal",
             text := "RSI at " ++ toFixedQ rsi.value 1 ++ " with bearish momentum",
             impact := Impact.negative }]
        else []
  let macdReasons : List PredictionReason :=
    match enhancedIndicators with
    | Option.none => []
    | some e =>
      match e.macd with
      | Option.none => []
      | some macd =>
        if macd.crossover = MACDCrossover.bullishCrossover then
          [{ category := "MACD Signal",
             text := "Bullish MACD crossover detected - strong momentum shift",
             impact := Impact.positive }]
        else if macd.crossover = MACDCrossover.bearishCrossover then
          [{ category := "MACD Signal",
             text := "Bearish MACD crossover detected - momentum turning down",
             impact := Impact.negative }]
        else if macd.trend = Trend.bullish ∧ macd.histogram > 0 then
          [{ category := "MACD Signal",
             text := "MACD bullish with positive histogram ("
               ++ toFixedQ macd.histogram 2 ++ ")",
             impact := Impact.positive }]
        else if macd.trend = Trend.bearish ∧ macd.histogram < 0 then
          [{ category := "MACD Signal",
             text := "MACD bearish with negative histogram ("
               ++ toFixedQ macd.histogram 2 ++ ")",
             impact := Impact.negative }]
        else []
  let bbReasons : List PredictionReason :=
    match enhancedIndicators with
    | Option.none => []
    | some e =>
      match e.bollingerBands with
      | Option.none => []
      | some bb =>
        if bb.position = BBPosition.belowLower then
          [{ category := "Bollinger Bands",
             text := "Price below lower Bollinger Band - oversold signal",
             impact := Impact.positive }]
        else if bb.position = BBPosition.aboveUpper then
          [{ category := "Bollinger Bands",
             text := "Price above upper Bollinger Band - overbought signal",
             impact := Impact.negative }]
        else if bb.bandwidth < 5 then
          [{ category := "Bollinger Bands",
             text := "Bollinger Band squeeze (" ++ toFixedQ bb.bandwidth 1
               ++ "%) - breakout imminent",
             impact := Impact.neutral }]
        else []
  let supportReasons : List PredictionReason :=
    match enhancedIndicators with
    | Option.none => []
    | some e =>
      match e.supportLevels with
      | Option.none => []
      | some sl =>
        if sl.length > 0 then
          match sl.find? (fun s => decide (s.strength = LevelStrength.strong)) with
          | some strongSupport =>
            [{ category := "Support Level",
               text := "Strong support at $" ++ toFixedQ strongSupport.price 2
                 ++ " (" ++ toString strongSupport.touches ++ " touches)",
               impact := Impact.positive }]
          | Option.none => []
        else []
  let resistanceReasons : List PredictionReason :=
    match enhancedIndicators with
    | Option.none => []
    | some e =>
      match e.resistanceLevels with
      | Option.none => []
      | some rl =>
        if rl.length > 0 then
          match rl.find? (fun r => decide (r.strength = LevelStrength.strong)) with
          | some strongResistance =>
            [{ category := "Resistance Level",
               text := "Strong resistance at $" ++ toFixedQ strongResistance.price 2
                 ++ " (" ++ toString strongResistance.touches ++ " touches)",
               impact := Impact.negative }]
          | Option.none => []
        else []
  let price24h := crypto.price_change_percentage_24h.getD 0
  let momentumReasons : List PredictionReason :=
    if |price24h| > 2 then
      [{ category := "Momentum",
         text := (if price24h > 0 then "Strong upward" else "Strong downward")
           ++ " momentum with " ++ toFixedQ (|price24h|) 2 ++ "% move in 24h",
         impact := if price24h > 0 then Impact.positive else Impact.negative }]
    else []
  let volumeReasons : List PredictionReason :=
    if indicators.volume_signal = VolumeSignal.high then
      [{ category := "Volume",
         text := "High trading volume confirms strong market participation",
         impact := if prediction = PredictionType.LONG then Impact.positive
           else if prediction = PredictionType.SHORT then Impact.negative
           else Impact.neutral }]
    else []
  let volatilityReasons : List PredictionReason :=
    if indicators.volatility > 5 then
      [{ category := "Risk",
         text := "High volatility (" ++ toFixedQ indicators.volatility 1
           ++ "%) - expect larger price swings",
         impact := Impact.neutral }]
    else []
  rsiReasons ++ macdReasons ++ bbReasons ++ supportReasons ++ resistanceReasons
    ++ momentumReasons ++ volumeReasons ++ volatilityReasons

/-- `calculateTargets` from the prediction engine.  The `some e` / `NEUTRAL`
combination lands in the source's `else` fallback (the guard is
`enhancedIndicators && prediction !== 'NEUTRAL'`). -/
def calculateTargets (crypto : CryptoData) (prediction : PredictionType)
    (indicators : TechnicalIndicators) (leverage : ℤ)
    (enhancedIndicators : Option EnhancedTechnicalIndicators) : ℚ × ℚ :=
  let currentPrice := crypto.current_price
  let marketCapRank := crypto.market_cap_rank
  let realVolatility := indicators.volatility
  let baseTargetPercent : ℚ :=
    if marketCapRank ≤ 10 then 0.045
    else if marketCapRank ≤ 30 then 0.07
    else if marketCapRank ≤ 50 then 0.095
    else if marketCapRank ≤ 100 then 0.125
    else 0.16
  let baseStopPercent : ℚ :=
    if marketCapRank ≤ 10 then 0.015
    else if marketCapRank ≤ 30 then 0.025
    else if marketCapRank ≤ 50 then 0.03
    else if marketCapRank ≤ 100 then 0.035
    else 0.045
  let volatilityMultiplier := max 0.7 (min 1.8 (realVolatility / 3))
  let targetPercent := baseTargetPercent * volatilityMultiplier
  let stopPercent := if leverage ≥ 5 then baseStopPercent * 0.6
    else if leverage ≥ 3 then baseStopPercent * 0.8
    else baseStopPercent
  match enhancedIndicators with
  | some e =>
    if prediction = PredictionType.LONG then
      let targetPrice :=
        match e.resistanceLevels with
        | some (r0 :: _) =>
          let nextResistance := r0.price
          let resistanceGain := (nextResistance - currentPrice) / currentPrice
          if resistanceGain > 0.01 ∧ resistanceGain < targetPercent * 1.5 then nextResistance
          else currentPrice * (1 + targetPercent)
        | _ => currentPrice * (1 + targetPercent)
      let stopLoss :=
        match e.supportLevels with
        | some (s0 :: _) =>
          let nearestSupport := s0.price
          let supportDistance := (currentPrice - nearestSupport) / currentPrice
          if supportDistance > 0.005 ∧ supportDistance < stopPercent * 2 then
            nearestSupport * 0.995
          else currentPrice * (1 - stopPercent)
        | _ => currentPrice * (1 - stopPercent)
      (targetPrice, stopLoss)
    else if prediction = PredictionType.SHORT then
      let targetPrice :=
        match e.supportLevels with
        | some (s0 :: _) =>
          let nextSupport := s0.price
          let supportDrop := (currentPrice - nextSupport) / currentPrice
          if supportDrop > 0.01 ∧ supportDrop < targetPercent * 1.5 then nextSupport
          else currentPrice * (1 - targetPercent)
        | _ => currentPrice * (1 - targetPercent)
      let stopLoss :=
        match e.resistanceLevels with
        | some (r0 :: _) =>
          let nearestResistance := r0.price
          let resistanceDistance := (nearestResistance - currentPrice) / currentPrice
          if resistanceDistance > 0.005 ∧ resistanceDistance < stopPercent * 2 then
            nearestResistance * 1.005
          else currentPrice * (1 + stopPercent)
        | _ => currentPrice * (1 + stopPercent)
      (targetPrice, stopLoss)
    else (currentPrice, currentPrice * 0.97)
  | Option.none =>
    if prediction = PredictionType.LONG then
      (currentPrice * (1 + targetPercent), currentPrice * (1 - stopPercent))
    else if prediction = PredictionType.SHORT then
      (currentPrice * (1 - targetPercent), currentPrice * (1 + stopPercent))
    else (currentPrice, currentPrice * 0.97)

/-- `calculateTimeframe` from the prediction engine. -/
def calculateTimeframe (volatility momentum marketCapRank : ℚ) : String :=
  let strength := |momentum|
  if volatility > 8 ∧ strength > 15 then "4-8h"
  else if volatility > 6 then "8-24h"
  else if strength > 20 ∧ volatility > 3 then "1-2d"
  else if volatility < 2 ∧ strength < 10 then "2-5d"
  else if marketCapRank ≤ 10 then "1-2d"
  else "12-36h"

/-- String form of an `OBSignal` as JavaScript would interpolate it. -/
def obSignalText (s : OBSignal) : String :=
  match s with
  | OBSignal.overbought => "overbought"
  | OBSignal.oversold => "oversold"
  | OBSignal.neutral => "neutral"

/-- `generateAnalysis` from the prediction engine.  In the MACD fragment the
source reads `enhancedIndicators.macd.crossover` unconditionally after an
optional-chained comparison; a missing `macd` would throw there in
JavaScript, but the pipeline always populates it, and the embedding returns
no fragment in that unreachable case. -/
def generateAnalysis (crypto : CryptoData) (indicators : TechnicalIndicators)
    (prediction : PredictionType) (leverage : ℤ) (targetPercent : ℚ)
    (enhancedIndicators : Option EnhancedTechnicalIndicators) : String :=
  let momentumS := toFixedQ indicators.momentum 1
  let strengthS := toFixedQ indicators.strength 0
  let volatilityS := toFixedQ indicators.volatility 1
  let targetPct := toFixedQ (targetPercent * 100) 1
  let techContext :=
    match enhancedIndicators with
    | Option.none => ""
    | some e =>
      let rsiText : List String :=
        match e.rsi with
        | some rsi =>
          if rsi.signal = OBSignal.oversold then ["RSI oversold"]
          else if rsi.signal = OBSignal.overbought then ["RSI overbought"]
          else ["RSI " ++ toFixedQ rsi.value 0]
        | Option.none => []
      let macdText : List String :=
        match e.macd with
        | some macd =>
          if macd.crossover ≠ MACDCrossover.none then
            [if macd.crossover = MACDCrossover.bullishCrossover then "MACD buy signal"
             else "MACD sell signal"]
          else []
        | Option.none => []
      let bbText : List String :=
        match e.bollingerBands with
        | some bb =>
          if bb.signal ≠ OBSignal.neutral then ["BB " ++ obSignalText bb.signal] else []
        | Option.none => []
      let indicatorsText := rsiText ++ macdText ++ bbText
      if indicatorsText.length > 0 then
        " Technical: " ++ String.intercalate ", " indicatorsText ++ "."
      else ""
  if prediction = PredictionType.LONG then
    crypto.name ++ " shows bullish setup (momentum: " ++ momentumS ++ ") with "
      ++ strengthS ++ "/100 strength." ++ techContext ++ " Real 24h volatility: "
      ++ volatilityS ++ "%. Target: " ++ targetPct ++ "% upside. Consider "
      ++ toString leverage
      ++ "x leverage with tight stops. Enter on dips for better risk/reward."
  else if prediction = PredictionType.SHORT then
    crypto.name ++ " exhibits bearish setup (momentum: " ++ momentumS ++ ") with "
      ++ strengthS ++ "/100 strength." ++ techContext ++ " Real 24h volatility: "
      ++ volatilityS ++ "%. Target: " ++ targetPct ++ "% downside. Use "
      ++ toString leverage
      ++ "x leverage cautiously. Short rallies into resistance zones."
  else
    crypto.name ++ " trading neutral with momentum at " ++ momentumS ++ "."
      ++ techContext
      ++ " Wait for directional confirmation or trade range-bound with 1x only."

/-- The enhanced-indicator bundle `generatePrediction` builds from a fetched
price history (the body of `if (priceHistory && priceHistory.prices.length >
0)`). -/
def enhancedFromHistory (sqrtQ : ℚ → ℚ) (indicators : TechnicalIndicators)
    (priceHistory : PriceHistory) : EnhancedTechnicalIndicators :=
  let sr := detectSupportResistance priceHistory.prices 0.02
  { trend_24h := indicators.trend_24h
    trend_7d := indicators.trend_7d
    momentum := indicators.momentum
    volume_signal := indicators.volume_signal
    volatility := indicators.volatility
    strength := indicators.strength
    rsi := some (calculateRSI priceHistory.prices 14)
    macd := some (calculateMACD priceHistory.prices)
    bollingerBands := some (calculateBollingerBands sqrtQ priceHistory.prices 20 2)
    supportLevels := some sr.1
    resistanceLevels := some sr.2 }

/-- The tail of `generatePrediction` after `enhancedIndicators` has been
settled: the decision engine, confidence, leverage, risk, reasons, targets,
timeframe, analysis and record assembly, exactly in source order. -/
def generatePredictionWith (crypto : CryptoData)
    (enhancedIndicators : Option EnhancedTechnicalIndicators) : CryptoPrediction :=
  let indicators := calculateBasicIndicators crypto
  let prediction := determinePrediction indicators enhancedIndicators
  let sentiment := calculateSentiment indicators prediction enhancedIndicators
  let momentumScore := |indicators.momentum| * 1.8
  let volumeBonus : ℚ := if indicators.volume_signal = VolumeSignal.high then 10
    else if indicators.volume_signal = VolumeSignal.low then -5 else 0
  let techBonus : ℚ :=
    match enhancedIndicators with
    | Option.none => 0
    | some e =>
      (if e.rsi.map (·.signal) = some OBSignal.oversold
          ∨ e.rsi.map (·.signal) = some OBSignal.overbought then 10 else 0)
      + (if e.macd.map (·.crossover) ≠ some MACDCrossover.none then 15 else 0)
      + (if e.bollingerBands.map (·.signal) ≠ some OBSignal.neutral then 8 else 0)
  let confidence : ℤ := jsRound (min 100 (max 30 (40 + momentumScore + volumeBonus + techBonus)))
  let leverage := calculateLeverage (confidence : ℚ) indicators.volatility prediction
  let riskLevel := calculateRiskLevel indicators.volatility leverage indicators
  let reasons := generateReasons crypto indicators prediction enhancedIndicators
  let targets := calculateTargets crypto prediction indicators leverage enhancedIndicators
  let targetPercent :=
    if prediction = PredictionType.LONG then
      (targets.1 - crypto.current_price) / crypto.current_price
    else (crypto.current_price - targets.1) / crypto.current_price
  let timeframe := calculateTimeframe indicators.volatility indicators.momentum
    crypto.market_cap_rank
  let analysis := generateAnalysis crypto indicators prediction leverage targetPercent
    enhancedIndicators
  { crypto := crypto, prediction := prediction, sentiment := sentiment,
    confidence := confidence, indicators := indicators, reasons := reasons,
    targetPrice := targets.1, stopLoss := targets.2, timeframe := timeframe,
    analysis := analysis, leverage := leverage, riskLevel := riskLevel }

/-- `generatePrediction` with the external `fetchPriceHistory` call made
explicit: `fetchResult` is the outcome of the awaited fetch (`Except.error ()`
a thrown error, `Except.ok Option.none` a null payload, `Except.ok (some h)` a
delivered history).  The source's `try/catch` swallows the error case and
continues with `enhancedIndicators = null`; the function is total in
`fetchResult`, so no fetch failure propagates to the caller. -/
def generatePrediction (sqrtQ : ℚ → ℚ) (crypto : CryptoData)
    (fetchResult : Except Unit (Option PriceHistory)) : CryptoPrediction :=
  let indicators := calculateBasicIndicators crypto
  let enhancedIndicators : Option EnhancedTechnicalIndicators :=
    match fetchResult with
    | Except.error _ => Option.none
    | Except.ok Option.none => Option.none
    | Except.ok (some priceHistory) =>
      if priceHistory.prices.length > 0 then
        some (enhancedFromHistory sqrtQ indicators priceHistory)
      else Option.none
  generatePredictionWith crypto enhancedIndicators

/-- A strictly rising three-sample price history, used as concrete input. -/
def risingPrices : List PriceHistoryPoint := [⟨0, 1⟩, ⟨1, 2⟩, ⟨2, 3⟩]

/-- A concrete asset snapshot, used as concrete input. -/
def sampleCrypto : CryptoData :=
  { id := "bitcoin", name := "Bitcoin", current_price := 50000,
    market_cap := 1000000000000, market_cap_rank := 1,
    total_volume := 30000000000,
    price_change_percentage_24h := some 3,
    price_change_percentage_7d_in_currency := some 5,
    high_24h := 51000, low_24h := 49000 }

/-- A concrete basic-indicator record, used as concrete input. -/
def sampleIndicators : TechnicalIndicators :=
  { trend_24h := Trend.bullish, trend_7d := Trend.bullish, momentum := 10,
    volume_signal := VolumeSignal.normal, volatility := 3, strength := 60 }

/-- A twelve-sample price history with a strict local minimum (price 8) and a
strict local maximum (price 13), used as concrete input. -/
def srSamplePrices : List PriceHistoryPoint :=
  [⟨0, 10⟩, ⟨1, 9⟩, ⟨2, 8⟩, ⟨3, 9⟩, ⟨4, 10⟩, ⟨5, 12⟩, ⟨6, 13⟩, ⟨7, 12⟩,
    ⟨8, 11⟩, ⟨9, 10⟩, ⟨10, 9⟩, ⟨11, 19/2⟩]

/-- C1 counterexample: on a two-element list with period 5, `calculateSMA`
returns the last element 20, not the mean 15 of the available values. -/
theorem calculateSMA_short_not_mean :
    calculateSMA [10, 20] 5 = 20 ∧ calculateSMA [10, 20] 5 ≠ (10 + 20) / 2 := by
  have h : calculateSMA [10, 20] 5 = 20 := by
    simp [calculateSMA, List.getLastD]
  refine ⟨h, ?_⟩
  rw [h]; norm_num

/-- C1 (amended): on input shorter than the period, `calculateSMA` returns
the last available value (and 0 on the empty list); it never fails on short
input. -/
theorem calculateSMA_short_returns_last :
    (∀ (prices : List ℚ) (period : ℕ) (x : ℚ), prices.length < period →
      prices.getLast? = some x → calculateSMA prices period = x) ∧
    (∀ period : ℕ, 0 < period → calculateSMA [] period = 0) := by
  constructor
  · intro prices period x h hx
    rw [calculateSMA, if_pos h, List.getLastD_eq_getLast?, hx]
    rfl
  · intro period h
    rw [calculateSMA, if_pos (by simpa using h)]
    rfl

/-- C1 witness: the amended statement at the counterexample input. -/
theorem calculateSMA_short_returns_last_witness :
    calculateSMA [10, 20] 5 = 20 :=
  calculateSMA_short_returns_last.1 [10, 20] 5 20 (by norm_num) rfl

/-- C2: a price series shorter than `period + 1` makes `calculateRSI` return
exactly the neutral default, and a series shorter than 26 samples makes
`calculateMACD` return exactly its zero default; both functions are total. -/
theorem shortInput_defaults :
    ∀ (prices : List PriceHistoryPoint) (period : ℕ),
      (prices.length < period + 1 →
        calculateRSI prices period =
          { value := 50, signal := .neutral, trend := .neutral }) ∧
      (prices.length < 26 →
        calculateMACD prices =
          { macd := 0, signal := 0, histogram := 0, trend := .neutral,
            crossover := .none }) := by
  intro prices period
  constructor
  · intro h
    rw [calculateRSI, if_pos h]
  · intro h
    rw [calculateMACD]
    simp only [List.length_map]
    rw [if_pos h]

/-- C2 witness: the defaults at a concrete three-sample series (period 14 for
RSI). -/
theorem shortInput_defaults_witness :
    calculateRSI risingPrices 14 =
      { value := 50, signal := .neutral, trend := .neutral } ∧
    calculateMACD risingPrices =
      { macd := 0, signal := 0, histogram := 0, trend := .neutral,
        crossover := .none } :=
  ⟨(shortInput_defaults risingPrices 14).1 (by norm_num [risingPrices]),
    (shortInput_defaults risingPrices 14).2 (by norm_num [risingPrices])⟩

/-- C3: when the price-history fetch throws, returns null, or returns an
empty series, `generatePrediction` returns exactly the prediction computed
with `enhancedIndicators = null`; in particular the failure never propagates
(the function is total in the fetch outcome). -/
theorem generatePrediction_degrades :
    ∀ (sqrtQ : ℚ → ℚ) (crypto : CryptoData)
      (fetchResult : Except Unit (Option PriceHistory)),
      (fetchResult = Except.error () ∨ fetchResult = Except.ok Option.none ∨
        ∃ ph : PriceHistory, fetchResult = Except.ok (some ph) ∧ ph.prices = []) →
      generatePrediction sqrtQ crypto fetchResult =
        generatePredictionWith crypto Option.none := by
  intro sq c f h
  rcases h with h | h | ⟨ph, h, hp⟩ <;> subst h
  · rfl
  · rfl
  · simp [generatePrediction, hp]

/-- C3 witness: a failing fetch at a concrete asset. -/
theorem generatePrediction_degrades_witness :
    generatePrediction (fun x => x) sampleCrypto (Except.error ()) =
      generatePredictionWith sampleCrypto Option.none :=
  generatePrediction_degrades (fun x => x) sampleCrypto (Except.error ())
    (Or.inl rfl)

/-- C4: `calculateLeverage` always yields an integer between 1 and 10, yields
exactly 1 for a NEUTRAL direction, and for non-NEUTRAL directions equals the
rounded `confidence/volatility` formula clamped by the volatility band. -/
theorem calculateLeverage_range :
    ∀ (confidence volatility : ℚ) (prediction : PredictionType),
      1 ≤ calculateLeverage confidence volatility prediction ∧
      calculateLeverage confidence volatility prediction ≤ 10 ∧
      (prediction = PredictionType.NEUTRAL →
        calculateLeverage confidence volatility prediction = 1) ∧
      (prediction ≠ PredictionType.NEUTRAL →
        calculateLeverage confidence volatility prediction =
          claimedLeverage confidence volatility) := by
  intro c v p
  by_cases hp : p = PredictionType.NEUTRAL
  · subst hp
    refine ⟨?_, ?_, fun _ => ?_, fun h => absurd rfl h⟩ <;> simp [calculateLeverage]
  · have he : calculateLeverage c v p = claimedLeverage c v := by
      rw [calculateLeverage, claimedLeverage, if_neg hp]
    refine ⟨?_, ?_, fun h => absurd h hp, fun _ => he⟩ <;>
      rw [he, claimedLeverage] <;> split_ifs <;> omega

/-- C4 witness: the formula equality at a LONG call and the forced 1 at a
NEUTRAL call. -/
theorem calculateLeverage_range_witness :
    calculateLeverage 80 3 PredictionType.LONG = claimedLeverage 80 3 ∧
    calculateLeverage 50 5 PredictionType.NEUTRAL = 1 :=
  ⟨(calculateLeverage_range 80 3 PredictionType.LONG).2.2.2 (by decide),
    (calculateLeverage_range 50 5 PredictionType.NEUTRAL).2.2.1 rfl⟩

/-- C7 counterexample: on the empty series the short branch of
`calculateBollingerBands` has no current price to centre on — the three band
fields are `none` (`undefined`/`NaN` in JavaScript), so no rational `p` makes
the returned band equal the degenerate band `p×1.05 / p / p×0.95`. -/
theorem bollinger_empty_no_price :
    (calculateBollingerBands (fun x => x) ([] : List PriceHistoryPoint) 20 2).middle
      = Option.none ∧
    (calculateBollingerBands (fun x => x) ([] : List PriceHistoryPoint) 20 2).upper
      = Option.none ∧
    (calculateBollingerBands (fun x => x) ([] : List PriceHistoryPoint) 20 2).lower
      = Option.none := by
  refine ⟨rfl, rfl, rfl⟩

/-- C7 (amended): for every nonempty series with fewer than 20 samples (the
default period), `calculateBollingerBands` returns the degenerate band around
the last price `x`: upper `x×1.05`, middle `x`, lower `x×0.95`, bandwidth 10,
position middle, signal neutral; on the empty series the band values are
undefined (`none`) instead. -/
theorem bollinger_short_degenerate :
    ∀ (sqrtQ : ℚ → ℚ) (prices : List PriceHistoryPoint) (x : ℚ),
      prices.length < 20 → (prices.map (·.price)).getLast? = some x →
      calculateBollingerBands sqrtQ prices 20 2 =
        { upper := some (x * 1.05), middle := some x, lower := some (x * 0.95),
          bandwidth := 10, position := .middle, signal := .neutral } := by
  intro sq prices x h hx
  rw [calculateBollingerBands]
  simp only [List.length_map, hx]
  rw [if_pos h]
  simp

/-- C7 witness: the degenerate band at a concrete three-sample series. -/
theorem bollinger_short_degenerate_witness :
    calculateBollingerBands (fun x => x) risingPrices 20 2 =
      { upper := some (3 * 1.05), middle := some 3, lower := some (3 * 0.95),
        bandwidth := 10, position := .middle, signal := .neutral } :=
  bollinger_short_degenerate (fun x => x) risingPrices 3 (by norm_num [risingPrices]) rfl

/-- C10: the sentiment category always sits on the same side as the
direction — LONG yields EXTREME_BULLISH or BULLISH, SHORT yields
EXTREME_BEARISH or BEARISH, NEUTRAL yields exactly NEUTRAL, whatever the
indicators and sentiment score are. -/
theorem calculateSentiment_matches_direction :
    ∀ (indicators : TechnicalIndicators) (prediction : PredictionType)
      (e : Option EnhancedTechnicalIndicators),
      (prediction = PredictionType.LONG →
        calculateSentiment indicators prediction e = SentimentScore.EXTREME_BULLISH ∨
        calculateSentiment indicators prediction e = SentimentScore.BULLISH) ∧
      (prediction = PredictionType.SHORT →
        calculateSentiment indicators prediction e = SentimentScore.EXTREME_BEARISH ∨
        calculateSentiment indicators prediction e = SentimentScore.BEARISH) ∧
      (prediction = PredictionType.NEUTRAL →
        calculateSentiment indicators prediction e = SentimentScore.NEUTRAL) := by
  intro i p e
  refine ⟨?_, ?_, ?_⟩ <;> rintro rfl <;> rw [calculateSentiment.eq_def] <;>
    simp only [reduceCtorEq, reduceIte] <;> split_ifs <;> simp

/-- C10 witness: a LONG prediction with no enhanced indicators and a low
sentiment score still lands on the bullish side. -/
theorem calculateSentiment_matches_direction_witness :
    calculateSentiment sampleIndicators PredictionType.LONG Option.none =
        SentimentScore.EXTREME_BULLISH ∨
    calculateSentiment sampleIndicators PredictionType.LONG Option.none =
        SentimentScore.BULLISH :=
  (calculateSentiment_matches_direction sampleIndicators PredictionType.LONG
    Option.none).1 rfl

/-- Every consecutive delta of a strictly increasing price list is positive. -/
theorem priceDeltas_pos (l : List ℚ) (h : List.Chain' (· < ·) l) :
    ∀ c ∈ priceDeltas l, 0 < c := by
  induction l with
  | nil => intro c hc; simp [priceDeltas] at hc
  | cons a t ih =>
    cases t with
    | nil => intro c hc; simp [priceDeltas] at hc
    | cons b t2 =>
      intro c hc
      rw [List.chain'_cons] at h
      simp only [priceDeltas, List.tail_cons, List.zipWith_cons_cons] at hc
      rcases List.mem_cons.1 hc with rfl | hc2
      · linarith [h.1]
      · exact ih h.2 c (by simpa [priceDeltas] using hc2)

/-- The seed loop of `calculateRSI` never touches the loss accumulator when
every delta is positive. -/
theorem rsiInitFold_loss_zero (ds : List ℚ) :
    (∀ c ∈ ds, 0 < c) → ∀ init : ℚ × ℚ,
    (ds.foldl (fun gl c => if c > 0 then (gl.1 + c, gl.2) else (gl.1, gl.2 + |c|))
      init).2 = init.2 := by
  induction ds with
  | nil => intro _ init; rfl
  | cons c ds ih =>
    intro h init
    have hc : 0 < c := h c (List.mem_cons_self c ds)
    rw [List.foldl_cons, if_pos hc]
    exact ih (fun x hx => h x (List.mem_cons_of_mem c hx)) _

/-- The seed average loss of RSI is exactly 0 on all-positive deltas. -/
theorem rsiInitAvgs_loss_zero (period : ℕ) (cs : List ℚ)
    (h : ∀ c ∈ cs, 0 < c) : (rsiInitAvgs period cs).2 = 0 := by
  rw [rsiInitAvgs]
  simp only []
  rw [rsiInitFold_loss_zero (cs.take period)
    (fun c hc => h c (List.mem_of_mem_take hc)) (0, 0)]
  simp

/-- Wilder smoothing keeps a zero average loss at zero when every remaining
delta is positive. -/
theorem rsiSmoothFold_loss_zero (period : ℕ) (ds : List ℚ) :
    (∀ c ∈ ds, 0 < c) → ∀ init : ℚ × ℚ, init.2 = 0 →
    (ds.foldl (fun gl c =>
      if c > 0 then
        ((gl.1 * ((period : ℚ) - 1) + c) / (period : ℚ),
          gl.2 * ((period : ℚ) - 1) / (period : ℚ))
      else
        (gl.1 * ((period : ℚ) - 1) / (period : ℚ),
          (gl.2 * ((period : ℚ) - 1) + |c|) / (period : ℚ)))
      init).2 = 0 := by
  induction ds with
  | nil => intro _ init h0; exact h0
  | cons c ds ih =>
    intro h init h0
    have hc : 0 < c := h c (List.mem_cons_self c ds)
    rw [List.foldl_cons, if_pos hc]
    refine ih (fun x hx => h x (List.mem_cons_of_mem c hx)) _ ?_
    simp [h0]

/-- The smoothed average loss of RSI is exactly 0 on all-positive deltas. -/
theorem rsiSmooth_loss_zero (period : ℕ) (cs : List ℚ)
    (h : ∀ c ∈ cs, 0 < c) :
    (rsiSmooth period cs (rsiInitAvgs period cs)).2 = 0 := by
  rw [rsiSmooth]
  exact rsiSmoothFold_loss_zero period (cs.drop period)
    (fun c hc => h c (List.mem_of_mem_drop hc)) _
    (rsiInitAvgs_loss_zero period cs h)

/-- C6: on a strictly increasing price series of length at least `period + 1`
the average loss of `calculateRSI` is exactly 0, the guarded branch sets
`RS = 100` (no division by zero happens), and the returned value is
`100 - 100/101 ≈ 99.01`, which exceeds 70, so the signal is overbought. -/
theorem rsi_increasing_saturates :
    ∀ (prices : List PriceHistoryPoint) (period : ℕ),
      List.Chain' (· < ·) (prices.map (·.price)) →
      period + 1 ≤ prices.length →
      (rsiSmooth period (priceDeltas (prices.map (·.price)))
        (rsiInitAvgs period (priceDeltas (prices.map (·.price))))).2 = 0 ∧
      (calculateRSI prices period).value = 100 - 100 / (1 + 100) ∧
      70 < (calculateRSI prices period).value ∧
      (calculateRSI prices period).signal = OBSignal.overbought := by
  intro prices period hmono hlen
  have hnot : ¬ prices.length < period + 1 := by omega
  have hpos : ∀ c ∈ priceDeltas (prices.map (·.price)), 0 < c :=
    priceDeltas_pos _ hmono
  have hloss := rsiSmooth_loss_zero period (priceDeltas (prices.map (·.price))) hpos
  refine ⟨hloss, ?_, ?_, ?_⟩ <;>
    rw [calculateRSI, if_neg hnot] <;>
    simp only [hloss, if_pos rfl] <;>
    norm_num

/-- C6 witness: the saturated RSI at a concrete rising three-sample series
with period 2. -/
theorem rsi_increasing_saturates_witness :
    (rsiSmooth 2 (priceDeltas (risingPrices.map (·.price)))
      (rsiInitAvgs 2 (priceDeltas (risingPrices.map (·.price))))).2 = 0 ∧
    (calculateRSI risingPrices 2).value = 100 - 100 / (1 + 100) ∧
    70 < (calculateRSI risingPrices 2).value ∧
    (calculateRSI risingPrices 2).signal = OBSignal.overbought :=
  rsi_increasing_saturates risingPrices 2
    (by norm_num [risingPrices, List.chain'_cons])
    (by norm_num [risingPrices])

/-- The level-selection pipeline returns at most three levels. -/
theorem selectLevels_length (p : RawLevel → Bool) (le : RawLevel → RawLevel → Bool)
    (t : LevelType) (levels : List RawLevel) :
    (selectLevels p le t levels).length ≤ 3 := by
  simp only [selectLevels, List.length_map, List.length_take]
  omega

/-- Every returned level is the image of a clustered level that passed the
filter. -/
theorem selectLevels_mem (p : RawLevel → Bool) (le : RawLevel → RawLevel → Bool)
    (t : LevelType) (levels : List RawLevel) (x : SupportResistanceLevel)
    (hx : x ∈ selectLevels p le t levels) :
    ∃ a : RawLevel, p a = true ∧ x = formatLevel a t := by
  rcases List.mem_map.1 hx with ⟨a, ha, rfl⟩
  exact ⟨a,
    (List.mem_filter.1 (List.mem_mergeSort.1 (List.mem_of_mem_take ha))).2, rfl⟩

/-- The level-selection pipeline is sorted according to any relation implied
by its (transitive, total) comparator. -/
theorem selectLevels_pairwise (p : RawLevel → Bool) (le : RawLevel → RawLevel → Bool)
    (t : LevelType) (levels : List RawLevel)
    (R : SupportResistanceLevel → SupportResistanceLevel → Prop)
    (htrans : ∀ a b c, le a b = true → le b c = true → le a c = true)
    (htot : ∀ a b, le a b || le b a)
    (hR : ∀ a b, le a b = true → R (formatLevel a t) (formatLevel b t)) :
    List.Pairwise R (selectLevels p le t levels) := by
  rw [selectLevels]
  apply List.pairwise_map.2
  have hs := List.sorted_mergeSort htrans htot (levels.filter p)
  exact (hs.sublist (List.take_sublist 3 _)).imp (fun h => hR _ _ h)

/-- C5: for every price series, `detectSupportResistance` (at the default 2%
threshold) returns at most 3 supports, each strictly below the last sample's
price and above 80% of it, sorted descending by price, and at most 3
resistances, each strictly above the last sample's price and below 120% of
it, sorted ascending by price. -/
theorem detectSR_bounded_sorted :
    ∀ prices : List PriceHistoryPoint,
      (detectSupportResistance prices 0.02).1.length ≤ 3 ∧
      (detectSupportResistance prices 0.02).2.length ≤ 3 ∧
      (∀ l ∈ (detectSupportResistance prices 0.02).1,
        l.price < (prices.map (·.price)).getLastD 0 ∧
        (prices.map (·.price)).getLastD 0 * 0.8 < l.price) ∧
      (∀ l ∈ (detectSupportResistance prices 0.02).2,
        (prices.map (·.price)).getLastD 0 < l.price ∧
        l.price < (prices.map (·.price)).getLastD 0 * 1.2) ∧
      List.Pairwise (fun a b => b.price ≤ a.price)
        (detectSupportResistance prices 0.02).1 ∧
      List.Pairwise (fun a b => a.price ≤ b.price)
        (detectSupportResistance prices 0.02).2 := by
  intro prices
  by_cases h : prices.length < 10
  · rw [detectSupportResistance, if_pos h]
    simp
  · rw [detectSupportResistance, if_neg h]
    refine ⟨selectLevels_length _ _ _ _, selectLevels_length _ _ _ _, ?_, ?_, ?_, ?_⟩
    · intro l hl
      obtain ⟨a, hpa, rfl⟩ := selectLevels_mem _ _ _ _ l hl
      simp only [Bool.and_eq_true, decide_eq_true_eq] at hpa
      exact ⟨hpa.1, hpa.2⟩
    · intro l hl
      obtain ⟨a, hpa, rfl⟩ := selectLevels_mem _ _ _ _ l hl
      simp only [Bool.and_eq_true, decide_eq_true_eq] at hpa
      exact ⟨hpa.1, hpa.2⟩
    · exact selectLevels_pairwise _ _ _ _ _
        (fun a b c hab hbc => by
          exact decide_eq_true (le_trans (of_decide_eq_true hbc) (of_decide_eq_true hab)))
        (fun a b => by
          rcases le_total b.price a.price with hle | hle
          · simp [decide_eq_true hle]
          · simp [decide_eq_true hle])
        (fun a b hab => of_decide_eq_true hab)
    · exact selectLevels_pairwise _ _ _ _ _
        (fun a b c hab hbc => by
          exact decide_eq_true (le_trans (of_decide_eq_true hab) (of_decide_eq_true hbc)))
        (fun a b => by
          rcases le_total a.price b.price with hle | hle
          · simp [decide_eq_true hle]
          · simp [decide_eq_true hle])
        (fun a b hab => of_decide_eq_true hab)

/-- A `min`-fold over a list yields one of its inputs. -/
theorem foldl_min_mem : ∀ (t : List ℚ) (a : ℚ), t.foldl min a ∈ a :: t := by
  intro t
  induction t with
  | nil => intro a; simp
  | cons b t ih =>
    intro a
    rw [List.foldl_cons]
    rcases List.mem_cons.1 (ih (min a b)) with hx | hx
    · rcases min_choice a b with hm | hm
      · rw [hx, hm]; exact List.mem_cons_self _ _
      · rw [hx, hm]; exact List.mem_cons_of_mem _ (List.mem_cons_self _ _)
    · exact List.mem_cons_of_mem _ (List.mem_cons_of_mem _ hx)

/-- A `min`-fold over a list is a lower bound of its inputs. -/
theorem foldl_min_le : ∀ (t : List ℚ) (a x : ℚ), x ∈ a :: t → t.foldl min a ≤ x := by
  intro t
  induction t with
  | nil =>
    intro a x hx
    rw [List.mem_singleton.1 hx]
    exact le_refl a
  | cons b t ih =>
    intro a x hx
    rw [List.foldl_cons]
    rcases List.mem_cons.1 hx with h1 | hx2
    · rw [h1]
      exact le_trans (ih (min a b) _ (List.mem_cons_self _ _)) (min_le_left a b)
    · rcases List.mem_cons.1 hx2 with h2 | hx3
      · rw [h2]
        exact le_trans (ih (min a b) _ (List.mem_cons_self _ _)) (min_le_right a b)
      · exact ih (min a b) x (List.mem_cons_of_mem _ hx3)

/-- A `max`-fold over a list yields one of its inputs. -/
theorem foldl_max_mem : ∀ (t : List ℚ) (a : ℚ), t.foldl max a ∈ a :: t := by
  intro t
  induction t with
  | nil => intro a; simp
  | cons b t ih =>
    intro a
    rw [List.foldl_cons]
    rcases List.mem_cons.1 (ih (max a b)) with hx | hx
    · rcases max_choice a b with hm | hm
      · rw [hx, hm]; exact List.mem_cons_self _ _
      · rw [hx, hm]; exact List.mem_cons_of_mem _ (List.mem_cons_self _ _)
    · exact List.mem_cons_of_mem _ (List.mem_cons_of_mem _ hx)

/-- A `max`-fold over a list is an upper bound of its inputs. -/
theorem foldl_max_ge : ∀ (t : List ℚ) (a x : ℚ), x ∈ a :: t → x ≤ t.foldl max a := by
  intro t
  induction t with
  | nil =>
    intro a x hx
    rw [List.mem_singleton.1 hx]
    exact le_refl a
  | cons b t ih =>
    intro a x hx
    rw [List.foldl_cons]
    rcases List.mem_cons.1 hx with h1 | hx2
    · rw [h1]
      exact le_trans (le_max_left a b) (ih (max a b) _ (List.mem_cons_self _ _))
    · rcases List.mem_cons.1 hx2 with h2 | hx3
      · rw [h2]
        exact le_trans (le_max_right a b) (ih (max a b) _ (List.mem_cons_self _ _))
      · exact ih (max a b) x (List.mem_cons_of_mem _ hx3)

/-- `jsMinList` of a nonempty list is one of its elements. -/
theorem jsMinList_mem (l : List ℚ) (h : l ≠ []) : jsMinList l ∈ l := by
  cases l with
  | nil => exact absurd rfl h
  | cons a t => exact foldl_min_mem t a

/-- `jsMinList` is a lower bound. -/
theorem jsMinList_le (l : List ℚ) (x : ℚ) (hx : x ∈ l) : jsMinList l ≤ x := by
  cases l with
  | nil => cases hx
  | cons a t => exact foldl_min_le t a x hx

/-- `jsMaxList` of a nonempty list is one of its elements. -/
theorem jsMaxList_mem (l : List ℚ) (h : l ≠ []) : jsMaxList l ∈ l := by
  cases l with
  | nil => exact absurd rfl h
  | cons a t => exact foldl_max_mem t a

/-- `jsMaxList` is an upper bound. -/
theorem le_jsMaxList (l : List ℚ) (x : ℚ) (hx : x ∈ l) : x ≤ jsMaxList l := by
  cases l with
  | nil => cases hx
  | cons a t => exact foldl_max_ge t a x hx

/-- `vpAddAt` preserves the bucket count. -/
theorem vpAddAt_length (v : ℚ) : ∀ (n : ℕ) (l : List (ℚ × ℚ)),
    (vpAddAt v n l).length = l.length := by
  intro n
  induction n with
  | zero => intro l; cases l <;> rfl
  | succ n ih =>
    intro l
    cases l with
    | nil => rfl
    | cons b bs => simp [vpAddAt, ih]

/-- `vpAddAt` at an in-bounds index adds exactly `v` to the total volume. -/
theorem vpAddAt_sum (v : ℚ) : ∀ (n : ℕ) (l : List (ℚ × ℚ)), n < l.length →
    ((vpAddAt v n l).map Prod.snd).sum = (l.map Prod.snd).sum + v := by
  intro n
  induction n with
  | zero =>
    intro l hl
    cases l with
    | nil => simp at hl
    | cons b bs => simp [vpAddAt]; ring
  | succ n ih =>
    intro l hl
    cases l with
    | nil => simp at hl
    | cons b bs =>
      simp only [vpAddAt, List.map_cons, List.sum_cons, ih bs (by simpa using hl)]
      ring

/-- `vpAddAt` with a nonnegative volume preserves bucket nonnegativity. -/
theorem vpAddAt_nonneg (v : ℚ) (hv : 0 ≤ v) : ∀ (n : ℕ) (l : List (ℚ × ℚ)),
    (∀ b ∈ l, 0 ≤ b.2) → ∀ b ∈ vpAddAt v n l, 0 ≤ b.2 := by
  intro n
  induction n with
  | zero =>
    intro l hl b hb
    cases l with
    | nil => cases hb
    | cons c cs =>
      rcases List.mem_cons.1 hb with rfl | hb2
      · have := hl c (List.mem_cons_self _ _)
        simpa using add_nonneg this hv
      · exact hl b (List.mem_cons_of_mem _ hb2)
  | succ n ih =>
    intro l hl b hb
    cases l with
    | nil => cases hb
    | cons c cs =>
      rcases List.mem_cons.1 hb with rfl | hb2
      · exact hl b (List.mem_cons_self _ _)
      · exact ih cs (fun x hx => hl x (List.mem_cons_of_mem _ hx)) b hb2

/-- A successful `vpAdd` preserves the bucket count. -/
theorem vpAdd_length (bs : List (ℚ × ℚ)) (idx : ℤ) (v : ℚ) (bs2 : List (ℚ × ℚ))
    (h : vpAdd bs idx v = some bs2) : bs2.length = bs.length := by
  rw [vpAdd] at h
  split at h
  · cases h; exact vpAddAt_length v _ bs
  · cases h

/-- A successful `vpAdd` adds exactly `v` to the total volume. -/
theorem vpAdd_sum (bs : List (ℚ × ℚ)) (idx : ℤ) (v : ℚ) (bs2 : List (ℚ × ℚ))
    (h : vpAdd bs idx v = some bs2) :
    (bs2.map Prod.snd).sum = (bs.map Prod.snd).sum + v := by
  rw [vpAdd] at h
  split at h
  · next hb => cases h; exact vpAddAt_sum v _ bs hb.2
  · cases h

/-- A successful `vpAdd` of a nonnegative volume preserves nonnegativity. -/
theorem vpAdd_nonneg (bs : List (ℚ × ℚ)) (idx : ℤ) (v : ℚ) (hv : 0 ≤ v)
    (bs2 : List (ℚ × ℚ)) (h : vpAdd bs idx v = some bs2)
    (hbs : ∀ b ∈ bs, 0 ≤ b.2) : ∀ b ∈ bs2, 0 ≤ b.2 := by
  rw [vpAdd] at h
  split at h
  · cases h; exact vpAddAt_nonneg v hv _ bs hbs
  · cases h

/-- A successful distribution preserves the bucket count. -/
theorem vpDistribute_length (minPrice priceStep : ℚ) (priceRanges : ℕ) :
    ∀ (samples : List (ℚ × ℚ)) (bs out : List (ℚ × ℚ)),
      vpDistribute minPrice priceStep priceRanges samples bs = some out →
      out.length = bs.length := by
  intro samples
  induction samples with
  | nil =>
    intro bs out h
    cases h
    rfl
  | cons s rest ih =>
    intro bs out h
    rw [vpDistribute] at h
    cases hbi : vpBucketIndex minPrice priceStep priceRanges s.1 with
    | none => simp only [hbi] at h; cases h
    | some idx =>
      simp only [hbi] at h
      cases hadd : vpAdd bs idx s.2 with
      | none => simp only [hadd] at h; cases h
      | some bs2 =>
        simp only [hadd] at h
        rw [ih bs2 out h, vpAdd_length bs idx s.2 bs2 hadd]

/-- A successful distribution adds exactly the samples' total volume to the
buckets' total volume. -/
theorem vpDistribute_sum (minPrice priceStep : ℚ) (priceRanges : ℕ) :
    ∀ (samples : List (ℚ × ℚ)) (bs out : List (ℚ × ℚ)),
      vpDistribute minPrice priceStep priceRanges samples bs = some out →
      (out.map Prod.snd).sum = (bs.map Prod.snd).sum + (samples.map Prod.snd).sum := by
  intro samples
  induction samples with
  | nil =>
    intro bs out h
    cases h
    simp
  | cons s rest ih =>
    intro bs out h
    rw [vpDistribute] at h
    cases hbi : vpBucketIndex minPrice priceStep priceRanges s.1 with
    | none => simp only [hbi] at h; cases h
    | some idx =>
      simp only [hbi] at h
      cases hadd : vpAdd bs idx s.2 with
      | none => simp only [hadd] at h; cases h
      | some bs2 =>
        simp only [hadd] at h
        rw [ih bs2 out h, vpAdd_sum bs idx s.2 bs2 hadd]
        simp only [List.map_cons, List.sum_cons]
        ring

/-- A successful distribution of nonnegative volumes into nonnegative buckets
keeps every bucket volume nonnegative. -/
theorem vpDistribute_nonneg (minPrice priceStep : ℚ) (priceRanges : ℕ) :
    ∀ (samples : List (ℚ × ℚ)) (bs out : List (ℚ × ℚ)),
      (∀ s ∈ samples, 0 ≤ s.2) → (∀ b ∈ bs, 0 ≤ b.2) →
      vpDistribute minPrice priceStep priceRanges samples bs = some out →
      ∀ b ∈ out, 0 ≤ b.2 := by
  intro samples
  induction samples with
  | nil =>
    intro bs out _ hbs h
    cases h
    exact hbs
  | cons s rest ih =>
    intro bs out hs hbs h
    rw [vpDistribute] at h
    cases hbi : vpBucketIndex minPrice priceStep priceRanges s.1 with
    | none => simp only [hbi] at h; cases h
    | some idx =>
      simp only [hbi] at h
      cases hadd : vpAdd bs idx s.2 with
      | none => simp only [hadd] at h; cases h
      | some bs2 =>
        simp only [hadd] at h
        exact ih bs2 out (fun x hx => hs x (List.mem_cons_of_mem _ hx))
          (vpAdd_nonneg bs idx s.2 (hs s (List.mem_cons_self _ _)) bs2 hadd hbs) h

/-- When every sample's bucket index is defined and in bounds, the
distribution loop succeeds. -/
theorem vpDistribute_some (minPrice priceStep : ℚ) (priceRanges : ℕ) :
    ∀ (samples : List (ℚ × ℚ)) (bs : List (ℚ × ℚ)),
      bs.length = priceRanges →
      (∀ s ∈ samples, ∃ j : ℤ,
        vpBucketIndex minPrice priceStep priceRanges s.1 = some j ∧
        0 ≤ j ∧ j.toNat < priceRanges) →
      ∃ out, vpDistribute minPrice priceStep priceRanges samples bs = some out := by
  intro samples
  induction samples with
  | nil =>
    intro bs _ _
    exact ⟨bs, rfl⟩
  | cons s rest ih =>
    intro bs hlen hs
    obtain ⟨j, hj, hj0, hjlt⟩ := hs s (List.mem_cons_self _ _)
    have hadd : vpAdd bs j s.2 = some (vpAddAt s.2 j.toNat bs) := by
      rw [vpAdd, if_pos ⟨hj0, by rw [hlen]; exact hjlt⟩]
    obtain ⟨out, hout⟩ := ih (vpAddAt s.2 j.toNat bs)
      (by rw [vpAddAt_length]; exact hlen)
      (fun x hx => hs x (List.mem_cons_of_mem _ hx))
    refine ⟨out, ?_⟩
    simp only [vpDistribute, hj, hadd]
    exact hout

/-- When all prices coincide (`priceStep = 0`), the very first sample's
bucket index is `NaN` and the distribution throws. -/
theorem vpDistribute_none_of_step_zero (minPrice : ℚ) (priceRanges : ℕ)
    (s : ℚ × ℚ) (rest : List (ℚ × ℚ)) (bs : List (ℚ × ℚ)) :
    vpDistribute minPrice 0 priceRanges (s :: rest) bs = Option.none := by
  rw [vpDistribute, vpBucketIndex, if_pos rfl]

/-- Dropping filtered-out elements whose image is 0 does not change a mapped
sum. -/
theorem sum_map_filter_of_zero {α : Type} (p : α → Bool) (f : α → ℚ) :
    ∀ l : List α, (∀ x ∈ l, p x = false → f x = 0) →
    ((l.filter p).map f).sum = (l.map f).sum := by
  intro l
  induction l with
  | nil => intro _; rfl
  | cons a l ih =>
    intro h
    cases hp : p a with
    | true =>
      simp only [List.filter_cons, hp, if_true, List.map_cons, List.sum_cons]
      rw [ih (fun x hx => h x (List.mem_cons_of_mem _ hx))]
    | false =>
      simp only [List.filter_cons, hp, Bool.false_eq_true, if_false, List.map_cons,
        List.sum_cons]
      rw [ih (fun x hx => h x (List.mem_cons_of_mem _ hx)),
        h a (List.mem_cons_self _ _) hp, zero_add]

/-- Sorting does not change a mapped sum. -/
theorem mergeSort_map_sum {α : Type} (le : α → α → Bool) (f : α → ℚ) (l : List α) :
    ((l.mergeSort le).map f).sum = (l.map f).sum :=
  ((List.mergeSort_perm l le).map f).sum_eq

/-- Scaling each volume by `100 / T` scales the total by `100 / T`. -/
theorem sum_map_div_mul (l : List (ℚ × ℚ)) (T : ℚ) :
    (l.map (fun b => b.2 / T * 100)).sum = (l.map Prod.snd).sum / T * 100 := by
  induction l with
  | nil => simp
  | cons a l ih =>
    simp only [List.map_cons, List.sum_cons, ih]
    ring

/-- C8 (amended): when every input volume is nonnegative, the total input
volume is positive, and `calculateVolumeProfile` returns a bucket list (no
equal-prices crash), the returned percentages sum to exactly 100 even though
zero-volume buckets are dropped. -/
theorem volumeProfile_percentages_sum :
    ∀ (input : List (ℚ × ℚ)) (priceRanges : ℕ) (out : List VolumeProfile),
      (∀ s ∈ input, 0 ≤ s.2) →
      0 < (input.map Prod.snd).sum →
      calculateVolumeProfile input priceRanges = some out →
      (out.map VolumeProfile.percentage).sum = 100 := by
  intro input pr out hnn hpos hout
  have hne : input.isEmpty = false := by
    cases input with
    | nil => simp at hpos
    | cons a l => rfl
  rw [calculateVolumeProfile] at hout
  simp only [hne, Bool.false_eq_true, if_false] at hout
  cases hd : vpDistribute (jsMinList (input.map Prod.fst))
      ((jsMaxList (input.map Prod.fst) - jsMinList (input.map Prod.fst)) / (pr : ℚ)) pr
      input
      ((List.range pr).map (fun (i : ℕ) =>
        (jsMinList (input.map Prod.fst) +
          (jsMaxList (input.map Prod.fst) - jsMinList (input.map Prod.fst)) / (pr : ℚ) * (i : ℚ) +
          (jsMaxList (input.map Prod.fst) - jsMinList (input.map Prod.fst)) / (pr : ℚ) / 2,
          (0 : ℚ)))) with
  | none => simp only [hd] at hout; cases hout
  | some bs =>
    simp only [hd] at hout
    have hT : (bs.map Prod.snd).sum = (input.map Prod.snd).sum := by
      have h0 : ((((List.range pr).map (fun (i : ℕ) =>
          (jsMinList (input.map Prod.fst) +
            (jsMaxList (input.map Prod.fst) - jsMinList (input.map Prod.fst)) / (pr : ℚ) * (i : ℚ) +
            (jsMaxList (input.map Prod.fst) - jsMinList (input.map Prod.fst)) / (pr : ℚ) / 2,
            (0 : ℚ)))).map Prod.snd).sum) = 0 := by
        refine List.sum_eq_zero (fun x hx => ?_)
        rcases List.mem_map.1 hx with ⟨b, hb, rfl⟩
        rcases List.mem_map.1 hb with ⟨i, _, rfl⟩
        rfl
      rw [vpDistribute_sum _ _ _ input _ bs hd, h0, zero_add]
    have hbnn : ∀ b ∈ bs, 0 ≤ b.2 := by
      refine vpDistribute_nonneg _ _ _ input _ bs hnn (fun b hb => ?_) hd
      rcases List.mem_map.1 hb with ⟨i, _, rfl⟩
      exact le_refl 0
    have hTpos : 0 < (bs.map Prod.snd).sum := by rw [hT]; exact hpos
    rw [← Option.some.inj hout, mergeSort_map_sum, sum_map_filter_of_zero]
    · rw [List.map_map]
      have hcomp : (VolumeProfile.percentage ∘ (fun b : ℚ × ℚ =>
          ({ priceLevel := b.1, volume := b.2,
             percentage := b.2 / (bs.map Prod.snd).sum * 100 } : VolumeProfile)))
          = fun b : ℚ × ℚ => b.2 / (bs.map Prod.snd).sum * 100 := rfl
      rw [hcomp, sum_map_div_mul, div_self (ne_of_gt hTpos), one_mul]
    · intro x hx hpx
      rcases List.mem_map.1 hx with ⟨b, hb, rfl⟩
      have hble : ¬ ((0 : ℚ) < b.2) := by
        simpa using of_decide_eq_false hpx
      have hbz : b.2 = 0 := le_antisymm (not_lt.1 hble) (hbnn b hb)
      simp [hbz]

/-- C9: whenever the input holds at least two distinct prices (and the bucket
count is positive), every sample's bucket index is defined and lies in
`[0, priceRanges - 1]` — so every bucket access is in bounds and the profile
computation succeeds; and the distinct-prices precondition is necessary,
since with all input prices equal (any nonempty such input, in particular a
single sample) the `priceStep` is 0 and the computation throws. -/
theorem volumeProfile_bucketIndex_safe :
    ∀ (input : List (ℚ × ℚ)) (priceRanges : ℕ),
      ((∃ p ∈ input.map Prod.fst, ∃ q ∈ input.map Prod.fst, p ≠ q) →
        0 < priceRanges →
        (∀ s ∈ input, ∃ j : ℤ,
          vpBucketIndex (jsMinList (input.map Prod.fst))
            ((jsMaxList (input.map Prod.fst) - jsMinList (input.map Prod.fst)) /
              (priceRanges : ℚ))
            priceRanges s.1 = some j ∧ 0 ≤ j ∧ j ≤ (priceRanges : ℤ) - 1) ∧
        calculateVolumeProfile input priceRanges ≠ Option.none) ∧
      (input ≠ [] →
        (∀ p ∈ input.map Prod.fst, ∀ q ∈ input.map Prod.fst, p = q) →
        calculateVolumeProfile input priceRanges = Option.none) := by
  intro input pr
  constructor
  · rintro ⟨p, hp, q, hq, hpq⟩ hpr
    have hmm : jsMinList (input.map Prod.fst) < jsMaxList (input.map Prod.fst) := by
      rcases lt_or_gt_of_ne hpq with h | h
      · exact lt_of_le_of_lt (jsMinList_le _ p hp)
          (lt_of_lt_of_le h (le_jsMaxList _ q hq))
      · exact lt_of_le_of_lt (jsMinList_le _ q hq)
          (lt_of_lt_of_le h (le_jsMaxList _ p hp))
    have hstep : 0 < (jsMaxList (input.map Prod.fst) - jsMinList (input.map Prod.fst)) /
        (pr : ℚ) :=
      div_pos (sub_pos.2 hmm) (by exact_mod_cast hpr)
    have hidx : ∀ s ∈ input, ∃ j : ℤ,
        vpBucketIndex (jsMinList (input.map Prod.fst))
          ((jsMaxList (input.map Prod.fst) - jsMinList (input.map Prod.fst)) / (pr : ℚ))
          pr s.1 = some j ∧ 0 ≤ j ∧ j ≤ (pr : ℤ) - 1 := by
      intro s hs
      refine ⟨min ⌊(s.1 - jsMinList (input.map Prod.fst)) /
          ((jsMaxList (input.map Prod.fst) - jsMinList (input.map Prod.fst)) / (pr : ℚ))⌋
          ((pr : ℤ) - 1), ?_, ?_, min_le_right _ _⟩
      · rw [vpBucketIndex, if_neg (ne_of_gt hstep)]
      · refine le_min ?_ ?_
        · exact Int.floor_nonneg.2 (div_nonneg
            (sub_nonneg.2 (jsMinList_le _ s.1 (List.mem_map_of_mem _ hs)))
            (le_of_lt hstep))
        · omega
    refine ⟨hidx, ?_⟩
    have hne : input.isEmpty = false := by
      cases input with
      | nil => simp at hp
      | cons a l => rfl
    rw [calculateVolumeProfile]
    simp only [hne, Bool.false_eq_true, if_false]
    obtain ⟨out2, hd⟩ := vpDistribute_some
      (jsMinList (input.map Prod.fst))
      ((jsMaxList (input.map Prod.fst) - jsMinList (input.map Prod.fst)) / (pr : ℚ))
      pr input
      ((List.range pr).map (fun (i : ℕ) =>
        (jsMinList (input.map Prod.fst) +
          (jsMaxList (input.map Prod.fst) - jsMinList (input.map Prod.fst)) / (pr : ℚ) * (i : ℚ) +
          (jsMaxList (input.map Prod.fst) - jsMinList (input.map Prod.fst)) / (pr : ℚ) / 2,
          (0 : ℚ))))
      (by simp)
      (fun s hs => by
        obtain ⟨j, hj, hj0, hjle⟩ := hidx s hs
        exact ⟨j, hj, hj0, by omega⟩)
    simp only [hd]
    simp
  · intro hne2 hall
    cases input with
    | nil => exact absurd rfl hne2
    | cons s rest =>
      have hmm : jsMaxList ((s :: rest).map Prod.fst) = jsMinList ((s :: rest).map Prod.fst) :=
        hall _ (jsMaxList_mem _ (by simp)) _ (jsMinList_mem _ (by simp))
      rw [calculateVolumeProfile]
      have hstep : (jsMaxList ((s :: rest).map Prod.fst) -
          jsMinList ((s :: rest).map Prod.fst)) / (pr : ℚ) = 0 := by
        rw [hmm]; simp
      simp only [List.isEmpty_cons, Bool.false_eq_true, if_false, hstep,
        vpDistribute_none_of_step_zero]

/-- C5 witness: the caps at a concrete twelve-sample series. -/
theorem detectSR_bounded_sorted_witness :
    (detectSupportResistance srSamplePrices 0.02).1.length ≤ 3 ∧
    (detectSupportResistance srSamplePrices 0.02).2.length ≤ 3 :=
  ⟨(detectSR_bounded_sorted srSamplePrices).1,
    (detectSR_bounded_sorted srSamplePrices).2.1⟩

/-- C8 counterexample: with a negative-volume sample the total input volume
is still positive (3 + (-1) = 2 > 0), but the negative bucket is dropped by
the `volume > 0` filter and the returned percentages sum to 150, not 100. -/
theorem volumeProfile_sum_counterexample :
    0 < (([((1 : ℚ), (3 : ℚ)), (2, -1)].map Prod.snd).sum) ∧
    calculateVolumeProfile [((1 : ℚ), (3 : ℚ)), (2, -1)] 2 =
      some [⟨5/4, 3, 150⟩] ∧
    (([(⟨5/4, 3, 150⟩ : VolumeProfile)].map VolumeProfile.percentage).sum ≠ 100) := by
  refine ⟨by norm_num, ?_, by norm_num⟩
  norm_num [calculateVolumeProfile, jsMinList, jsMaxList, vpDistribute, vpBucketIndex,
    vpAdd, vpAddAt, List.range_succ, List.mergeSort]

/-- C8 witness: the amended statement at a concrete two-sample input with
nonnegative volumes, whose profile is `[75%, 25%]`. -/
theorem volumeProfile_percentages_sum_witness :
    (([⟨5/4, 3, 75⟩, ⟨7/4, 1, 25⟩] : List VolumeProfile).map
      VolumeProfile.percentage).sum = 100 :=
  volumeProfile_percentages_sum [(1, 3), (2, 1)] 2 [⟨5/4, 3, 75⟩, ⟨7/4, 1, 25⟩]
    (by intro s hs; fin_cases hs <;> norm_num)
    (by norm_num)
    (by norm_num [calculateVolumeProfile, jsMinList, jsMaxList, vpDistribute,
      vpBucketIndex, vpAdd, vpAddAt, List.range_succ, List.mergeSort])

/-- C9 witness: a two-distinct-price input succeeds; a single-sample input
(`priceStep = 0`) throws. -/
theorem volumeProfile_bucketIndex_safe_witness :
    calculateVolumeProfile [((1 : ℚ), (3 : ℚ)), (2, 1)] 2 ≠ Option.none ∧
    calculateVolumeProfile [((5 : ℚ), (1 : ℚ))] 20 = Option.none :=
  ⟨((volumeProfile_bucketIndex_safe [(1, 3), (2, 1)] 2).1
      ⟨1, by norm_num, 2, by norm_num, by norm_num⟩ (by norm_num)).2,
    (volumeProfile_bucketIndex_safe [(5, 1)] 20).2 (by simp)
      (by intro p hp q hq; simp at hp hq; rw [hp, hq])⟩
